import Mathlib

/-!
Verification of the template composition and execution engine of
`prophetfromai/lostandfound` (`src/app/routers/templates.py`).

The Python code is shallowly embedded: Python values flowing through the
engine become `Value`, Python dicts become association lists with
dict-like operations, the Neo4j session becomes an abstract pure
`Backend` function, raised exceptions become `Except` errors, and the
definition store (the Cypher lookups at the top of
`execute_composed_template` and `execute_template`) becomes a `Store`
record of lookup functions.  Every definition follows the source code,
not the prose specification, except where a definition's doc comment
says otherwise.
-/

namespace LostAndFound

/-- Embedding of the Python values that flow through the engine
(caller-supplied JSON parameter values and backend record fields).
Compound values play no role in the verified properties, so the
embedding keeps the scalar shapes. -/
inductive Value where
  | vNull : Value
  | vBool : Bool → Value
  | vInt : Int → Value
  | vStr : String → Value
deriving DecidableEq, Repr

/-- One output record of a backend query (`dict(record)` in the code):
a Python dict from field names to values, as an association list in
insertion order. -/
abbrev Record := List (String × Value)

/-- A Python dict from parameter names to values (`parameters`,
`exec_params`, `context` in the code), as an association list in
insertion order. -/
abbrev ParamMap := List (String × Value)

/-- Python `d.get(k)` / `d[k]`: first binding of the key, if any. -/
def lookupV (m : ParamMap) (k : String) : Option Value :=
  match m with
  | [] => none
  | (k', v) :: rest => if k' = k then some v else lookupV rest k

/-- Python `k in d`. -/
def hasKey (m : ParamMap) (k : String) : Bool :=
  (lookupV m k).isSome

/-- Python `d[k] = v`: replace the value in place if the key exists
(keeping its position), otherwise append the new binding. -/
def dinsert (m : ParamMap) (k : String) (v : Value) : ParamMap :=
  match m with
  | [] => [(k, v)]
  | (k', v') :: rest =>
      if k' = k then (k', v) :: rest else (k', v') :: dinsert rest k v

/-- Python `d.pop(k, None)` (the resulting dict): remove the key. -/
def derase (m : ParamMap) (k : String) : ParamMap :=
  m.filter (fun kv => kv.1 ≠ k)

/-- Python `d.update(r)`: insert every binding of `r`, left to right. -/
def dupdate (m : ParamMap) (r : Record) : ParamMap :=
  r.foldl (fun acc kv => dinsert acc kv.1 kv.2) m

/-- One parameter spec attached to a component by the composition
lookup query (`{name, required, source}` with `source` defaulted to
`"input"` by `coalesce`). -/
structure ParamSpec where
  name : String
  required : Bool
  source : String
deriving DecidableEq, Repr

/-- One component of a composed template, as returned by the
composition lookup query (`{name, query, order, parameters}`). -/
structure Component where
  name : String
  query : String
  order : Int
  parameters : List ParamSpec
deriving DecidableEq, Repr

/-- The `ComposedQueryResult` pydantic model: per-component outcome. -/
structure ComposedQueryResult where
  template_name : String
  results : List Record
  error : Option String
deriving DecidableEq, Repr

/-- The backend (`session.run` followed by materialising the records):
a pure function from a query text and a bound-parameter map to either a
record list or a raised exception's message.  Purity models one
unchanged backend state for the duration of a request. -/
abbrev Backend := String → ParamMap → Except String (List Record)

/-- Fuel-indexed worker for `pyReplace` on character lists.  The fuel
starts at the length of the subject string; each step consumes at least
one character, so the fuel never runs out on the initial call. -/
def replaceCharsAux (pat rep : List Char) : Nat → List Char → List Char
  | _, [] => []
  | 0, s => s
  | fuel + 1, c :: rest =>
      if pat.isPrefixOf (c :: rest) ∧ pat ≠ [] then
        rep ++ replaceCharsAux pat rep fuel (rest.drop (pat.length - 1))
      else
        c :: replaceCharsAux pat rep fuel rest

/-- Python `s.replace(pat, rep)` for a non-empty pattern: replace every
non-overlapping occurrence, scanning left to right. -/
def pyReplace (s pat rep : String) : String :=
  ⟨replaceCharsAux pat.data rep.data s.data.length s.data⟩

/-- Worker for `hasSubstr`: does `pat` occur at some position? -/
def hasSubstrChars (pat : List Char) : List Char → Bool
  | [] => pat.isEmpty
  | c :: rest => pat.isPrefixOf (c :: rest) || hasSubstrChars pat rest

/-- Python `pat in s`: substring containment. -/
def hasSubstr (s pat : String) : Bool :=
  hasSubstrChars pat.data s.data

/-- Python truthiness of a `Value` (used by `if not relationship_type`
and by the `if not template_info["query"]` check). -/
def pyTruthy : Value → Bool
  | .vNull => false
  | .vBool b => b
  | .vInt n => n ≠ 0
  | .vStr s => s ≠ ""

/-- Python `str(v)` as used by the f-string splice in
`find_user_relationships`. -/
def pyStrOfValue : Value → String
  | .vNull => "None"
  | .vBool b => if b then "True" else "False"
  | .vInt n => toString n
  | .vStr s => s

/-- The relationship-type rewriting shared by both composed branches
(lines 205-208 and 249-251): if the query text contains the token
`$relationship_type` and the resolved map has a binding for
`relationship_type`, substitute the value into the text and drop the
binding; otherwise pass both through unchanged.  Python's
`str.replace` demands a string replacement, so a non-string binding
raises a `TypeError`, which the embedding returns as an error. -/
def renderQuery (query : String) (exec_params : ParamMap) :
    Except String (String × ParamMap) :=
  if hasSubstr query "$relationship_type" ∧ hasKey exec_params "relationship_type" then
    match lookupV exec_params "relationship_type" with
    | some (.vStr s) =>
        .ok (pyReplace query "$relationship_type" s, derase exec_params "relationship_type")
    | _ => .error "replace() argument 2 must be str"
  else
    .ok (query, exec_params)

/-- The guarded read of `results[-1].results[0][name]` (line 197):
`if results and results[-1].results and name in results[-1].results[0]`. -/
def prevLookup (results : List ComposedQueryResult) (name : String) : Option Value :=
  match results.getLast? with
  | none => none
  | some last =>
      match last.results with
      | [] => none
      | r :: _ => lookupV r name

/-- One iteration of the SEQUENCE-mode parameter loop (lines 187-201)
over accumulated `exec_params`: resolve from `input` or from the
immediately preceding result, then enforce `required`. -/
def resolveSeqStep (input : ParamMap) (results : List ComposedQueryResult)
    (cname : String) (acc : ParamMap) (p : ParamSpec) : Except String ParamMap :=
  let acc' :=
    if p.source = "input" ∧ hasKey input p.name then
      match lookupV input p.name with
      | some v => dinsert acc p.name v
      | none => acc
    else if p.source = "previous_result" then
      match prevLookup results p.name with
      | some v => dinsert acc p.name v
      | none => acc
    else acc
  if p.required ∧ ¬ hasKey acc' p.name then
    .error ("Missing required parameter for " ++ cname ++ ": " ++ p.name)
  else
    .ok acc'

/-- The whole SEQUENCE-mode parameter loop for one component. -/
def resolveSeqParams (input : ParamMap) (results : List ComposedQueryResult)
    (cname : String) (ps : List ParamSpec) : Except String ParamMap :=
  ps.foldlM (resolveSeqStep input results cname) []

/-- One iteration of the PARALLEL-mode parameter loop (lines 234-245):
`previous_result` resolves against the shared `context`, which in
PARALLEL mode is never updated after its initialisation from the
caller's input. -/
def resolveParStep (input context : ParamMap) (cname : String)
    (acc : ParamMap) (p : ParamSpec) : Except String ParamMap :=
  let acc' :=
    if p.source = "input" ∧ hasKey input p.name then
      match lookupV input p.name with
      | some v => dinsert acc p.name v
      | none => acc
    else if p.source = "previous_result" ∧ hasKey context p.name then
      match lookupV context p.name with
      | some v => dinsert acc p.name v
      | none => acc
    else acc
  if p.required ∧ ¬ hasKey acc' p.name then
    .error ("Missing required parameter for " ++ cname ++ ": " ++ p.name)
  else
    .ok acc'

/-- The whole PARALLEL-mode parameter loop for one component. -/
def resolveParParams (input context : ParamMap) (cname : String)
    (ps : List ParamSpec) : Except String ParamMap :=
  ps.foldlM (resolveParStep input context cname) []

/-- One SEQUENCE-mode loop body (lines 182-226), acting on the state
`(results, context)`: resolve, render, execute; append one success
result and fold its first record into `context`, or append one error
result carrying the exception's message. -/
def seqStep (backend : Backend) (input : ParamMap)
    (st : List ComposedQueryResult × ParamMap) (c : Component) :
    List ComposedQueryResult × ParamMap :=
  match resolveSeqParams input st.1 c.name c.parameters with
  | .error msg => (st.1 ++ [⟨c.name, [], some msg⟩], st.2)
  | .ok eps =>
      match renderQuery c.query eps with
      | .error msg => (st.1 ++ [⟨c.name, [], some msg⟩], st.2)
      | .ok (q, eps') =>
          match backend q eps' with
          | .error msg => (st.1 ++ [⟨c.name, [], some msg⟩], st.2)
          | .ok recs =>
              let ctx' :=
                match recs with
                | [] => st.2
                | r :: _ => dupdate st.2 r
              (st.1 ++ [⟨c.name, recs, none⟩], ctx')

/-- One PARALLEL-mode loop body (lines 229-266): stateless apart from
the constant `context`. -/
def parRun (backend : Backend) (input context : ParamMap) (c : Component) :
    ComposedQueryResult :=
  match resolveParParams input context c.name c.parameters with
  | .error msg => ⟨c.name, [], some msg⟩
  | .ok eps =>
      match renderQuery c.query eps with
      | .error msg => ⟨c.name, [], some msg⟩
      | .ok (q, eps') =>
          match backend q eps' with
          | .error msg => ⟨c.name, [], some msg⟩
          | .ok recs => ⟨c.name, recs, none⟩

/-- Python `sorted(components, key=lambda x: x["order"])` (line 177):
a stable ascending sort on the `order` field. -/
def sortByOrder (cs : List Component) : List Component :=
  List.insertionSort (fun a b => a.order ≤ b.order) cs

/-- The body of `execute_composed_template` after the composition has
been looked up (lines 176-268): sort the components by `order`,
initialise the context as a copy of the caller's input, and run either
the SEQUENCE or the PARALLEL loop.  Any `composition_type` other than
`"SEQUENCE"` takes the `else:  # PARALLEL` branch, as in the source. -/
def executeComposed (backend : Backend) (ctype : String) (input : ParamMap)
    (components : List Component) : List ComposedQueryResult :=
  let comps := sortByOrder components
  if ctype = "SEQUENCE" then
    (comps.foldl (seqStep backend input) ([], input)).1
  else
    comps.map (parRun backend input input)

/-- Modelled from the claim under examination: the SEQUENCE loop of an
otherwise-identical implementation that omits the `context` variable
and its updates (lines 179 and 214 removed). -/
def seqStepNoCtx (backend : Backend) (input : ParamMap)
    (results : List ComposedQueryResult) (c : Component) :
    List ComposedQueryResult :=
  match resolveSeqParams input results c.name c.parameters with
  | .error msg => results ++ [⟨c.name, [], some msg⟩]
  | .ok eps =>
      match renderQuery c.query eps with
      | .error msg => results ++ [⟨c.name, [], some msg⟩]
      | .ok (q, eps') =>
          match backend q eps' with
          | .error msg => results ++ [⟨c.name, [], some msg⟩]
          | .ok recs => results ++ [⟨c.name, recs, none⟩]

/-- Modelled from the claim under examination: `executeComposed` with
the context writes removed. -/
def executeComposedNoCtx (backend : Backend) (ctype : String) (input : ParamMap)
    (components : List Component) : List ComposedQueryResult :=
  let comps := sortByOrder components
  if ctype = "SEQUENCE" then
    comps.foldl (seqStepNoCtx backend input) []
  else
    comps.map (parRun backend input input)

instance {ε α : Type} [DecidableEq ε] [DecidableEq α] : DecidableEq (Except ε α) := by
  intro a b
  cases a <;> cases b
  case error.error e e' => exact decidable_of_iff (e = e') (by simp)
  case ok.ok x y => exact decidable_of_iff (x = y) (by simp)
  all_goals exact isFalse (by simp)

/-- What the template-info lookup of `execute_template` (lines 493-501)
returns for one template: `exists((t)-[:COMPOSES]->())` and
`t.cypher_query` (which is null for composed templates). -/
structure TemplateInfo where
  is_composed : Bool
  cypher_query : Option String
deriving DecidableEq, Repr

/-- The definition store, i.e. the Cypher lookups the engine performs
against the template graph: the template-info lookup of
`execute_template`, the composition lookup at the top of
`execute_composed_template` (composition type plus components with
their parameter specs), and the `HAS_PARAMETER` edges of each template
(read by the metadata endpoints, listed here so that declared
parameter specs of simple templates are representable). -/
structure Store where
  templates : String → Option TemplateInfo
  compositions : String → Option (String × List Component)
  templateParams : String → List ParamSpec

/-- A raised Python exception: either a `fastapi.HTTPException` with a
status code and detail, or any other exception carrying its message. -/
inductive PyExc where
  | http : Nat → String → PyExc
  | other : String → PyExc
deriving DecidableEq, Repr

/-- Python `str(e)` for the exceptions of `PyExc`, as consumed by the
blanket handler's `detail=str(e)`.  For `HTTPException` the embedding
fixes the `"<status>: <detail>"` rendering; no verified property
depends on this string, only on the status code the handler picks. -/
def pyExcStr : PyExc → String
  | .http status detail => toString status ++ ": " ++ detail
  | .other msg => msg

/-- The HTTP error the endpoint ends up raising. -/
structure HError where
  status : Nat
  detail : String
deriving DecidableEq, Repr

/-- A successful response body of the execute endpoint: either
`{composed_results: [...]}` or `{result: [...], message?: ...}`. -/
inductive ExecResponse where
  | composed : List ComposedQueryResult → ExecResponse
  | simple : List Record → Option String → ExecResponse
deriving DecidableEq, Repr

/-- The hard-coded query of the `find_user_items` branch (line 519). -/
def findUserItemsQuery : String :=
  "MATCH (u:User \x7bid: $user_id\x7d)-[:OWNS]->(i:Item) RETURN i as items"

/-- The f-string query of the `find_user_relationships` branch
(lines 533-537), with the relationship type spliced in as text. -/
def findUserRelationshipsQuery (rt : String) : String :=
  "\n                        MATCH (u:User \x7bid: $user_id\x7d)\n                        OPTIONAL MATCH (u)-[r:" ++
    rt ++
    "]->(other:User)\n                        RETURN u as user, collect(r) as relationships, count(r) as count\n                    "

/-- The body of the `try:` block of `execute_template` (lines 491-551),
with every `raise` surfaced as an `Except.error`.  The composition
lookup and its absent-composition `HTTPException(404)` (lines 151-174)
are folded in through `Store.compositions`. -/
def executeTemplateInner (store : Store) (backend : Backend)
    (template_name : String) (parameters : ParamMap) :
    Except PyExc ExecResponse :=
  match store.templates template_name with
  | none => .error (.http 404 "Template not found")
  | some info =>
      if info.is_composed then
        match store.compositions template_name with
        | none => .error (.http 404 "Composed template not found")
        | some (ctype, comps) =>
            .ok (.composed (executeComposed backend ctype parameters comps))
      else
        match info.cypher_query with
        | none => .error (.http 400 "Template has no query defined")
        | some q =>
            if q = "" then .error (.http 400 "Template has no query defined")
            else if template_name = "find_user_items" then
              match backend findUserItemsQuery parameters with
              | .error msg => .error (.other msg)
              | .ok records =>
                  if records.isEmpty then
                    .ok (.simple [] (some "No items found for this user"))
                  else .ok (.simple records none)
            else if template_name = "find_user_relationships" then
              match lookupV parameters "relationship_type" with
              | none => .error (.http 400 "Relationship type is required")
              | some v =>
                  if ¬ pyTruthy v then
                    .error (.http 400 "Relationship type is required")
                  else
                    match backend (findUserRelationshipsQuery (pyStrOfValue v)) parameters with
                    | .error msg => .error (.other msg)
                    | .ok records =>
                        if records.isEmpty then
                          .ok (.simple [] (some "No relationships found for this user"))
                        else .ok (.simple records none)
            else
              match backend q parameters with
              | .error msg => .error (.other msg)
              | .ok records =>
                  if records.isEmpty then
                    .ok (.simple [] (some "No results found"))
                  else .ok (.simple records none)

/-- The whole `execute_template` endpoint (lines 482-557).  Its `try:`
has no `except HTTPException: raise` arm, so the blanket
`except Exception as e: raise HTTPException(status_code=500,
detail=str(e))` also re-wraps the endpoint's own `HTTPException`s: any
error whatsoever leaves the endpoint with status 500. -/
def executeTemplate (store : Store) (backend : Backend)
    (template_name : String) (parameters : ParamMap) :
    Except HError ExecResponse :=
  match executeTemplateInner store backend template_name parameters with
  | .ok r => .ok r
  | .error e => .error ⟨500, pyExcStr e⟩

/-- Proof-side restatement of the one result a SEQUENCE iteration
appends for a component, as a function of the prior result list. -/
def seqResultOf (backend : Backend) (input : ParamMap)
    (prior : List ComposedQueryResult) (c : Component) : ComposedQueryResult :=
  match resolveSeqParams input prior c.name c.parameters with
  | .error msg => ⟨c.name, [], some msg⟩
  | .ok eps =>
      match renderQuery c.query eps with
      | .error msg => ⟨c.name, [], some msg⟩
      | .ok qp =>
          match backend qp.1 qp.2 with
          | .error msg => ⟨c.name, [], some msg⟩
          | .ok recs => ⟨c.name, recs, none⟩

/-- Replace a component's `order` value, keeping everything else. -/
def setOrder (c : Component) (n : Int) : Component :=
  ⟨c.name, c.query, n, c.parameters⟩

/-! Concrete fixtures: small stores and backends used to instantiate
the verified properties on executable inputs. -/

/-- A backend answering the two queries of the spec's `chain1`
scenario; every other query raises. -/
def chainBackend : Backend := fun q _ =>
  if q = "Q1" then .ok [[("u", Value.vStr "node")]]
  else .error ("no such query: " ++ q)

/-- A backend that always succeeds with one record echoing the query
text it was handed, making the executed query observable. -/
def echoBackend : Backend := fun q _ =>
  .ok [[("q", Value.vStr q)]]

/-- A backend that always succeeds with one fixed record. -/
def okBackend : Backend := fun _ _ =>
  .ok [[("x", Value.vInt 1)]]

/-- A backend that always succeeds with an empty record set. -/
def emptyBackend : Backend := fun _ _ =>
  .ok []

/-- A backend that always raises. -/
def boomBackend : Backend := fun _ _ =>
  .error "boom"

/-- The `find_user` component of the spec's `chain1` scenario. -/
def findUserComp : Component :=
  ⟨"find_user", "Q1", 0, [⟨"user_id", true, "input"⟩]⟩

/-- The `count_relationships` component of the spec's `chain1`
scenario: its required `user_id` comes from the previous result. -/
def countRelComp : Component :=
  ⟨"count_relationships", "Q2", 1, [⟨"user_id", true, "previous_result"⟩]⟩

/-- The caller input of the spec's `chain1` scenario. -/
def chainInput : ParamMap := [("user_id", Value.vStr "42")]

/-- Template-info table shared by the fixture stores: one plain simple
template `t`, the two hard-coded template names with non-empty stored
bodies, and a template marked composed. -/
def fixtureTemplates : String → Option TemplateInfo := fun n =>
  if n = "t" then some ⟨false, some "Q1"⟩
  else if n = "find_user_items" then some ⟨false, some "STORED items body"⟩
  else if n = "find_user_relationships" then some ⟨false, some "STORED rel body"⟩
  else if n = "comp" then some ⟨true, none⟩
  else none

/-- A store that declares a required input-sourced `user_id` for every
template, and has no composition rows (so the composed template `comp`
has a dangling composition lookup). -/
def fixtureStore : Store :=
  ⟨fixtureTemplates, fun _ => none, fun _ => [⟨"user_id", true, "input"⟩]⟩

/-- The same store with no declared parameters at all. -/
def fixtureStoreNoParams : Store :=
  ⟨fixtureTemplates, fun _ => none, fun _ => []⟩

/-- A second template-info table whose stored query bodies for the two
hard-coded template names differ from `fixtureTemplates`. -/
def fixtureTemplatesAlt : String → Option TemplateInfo := fun n =>
  if n = "t" then some ⟨false, some "Q1"⟩
  else if n = "find_user_items" then some ⟨false, some "ALTERNATE items body"⟩
  else if n = "find_user_relationships" then some ⟨false, some "ALTERNATE rel body"⟩
  else if n = "comp" then some ⟨true, none⟩
  else none

/-- Store over the alternate template table. -/
def fixtureStoreAlt : Store :=
  ⟨fixtureTemplatesAlt, fun _ => none, fun _ => []⟩

/-! Helper lemmas about the SEQUENCE and PARALLEL loop bodies. -/

theorem seqStep_fst (b : Backend) (i : ParamMap)
    (st : List ComposedQueryResult × ParamMap) (c : Component) :
    (seqStep b i st c).1 = seqStepNoCtx b i st.1 c := by
  unfold seqStep seqStepNoCtx
  repeat' split
  all_goals first
    | rfl
    | simp_all

theorem seqStepNoCtx_eq (b : Backend) (i : ParamMap)
    (rs : List ComposedQueryResult) (c : Component) :
    seqStepNoCtx b i rs c = rs ++ [seqResultOf b i rs c] := by
  unfold seqStepNoCtx seqResultOf
  repeat' split
  all_goals first
    | rfl
    | simp_all

theorem seqResultOf_name (b : Backend) (i : ParamMap)
    (rs : List ComposedQueryResult) (c : Component) :
    (seqResultOf b i rs c).template_name = c.name := by
  unfold seqResultOf
  repeat' split
  all_goals first
    | rfl
    | simp_all

theorem seqResultOf_err (b : Backend) (i : ParamMap)
    (rs : List ComposedQueryResult) (c : Component)
    (h : (seqResultOf b i rs c).error ≠ none) :
    (seqResultOf b i rs c).results = [] := by
  unfold seqResultOf at h ⊢
  revert h
  repeat' split
  all_goals intro h
  all_goals first
    | rfl
    | exact absurd rfl h
    | simp_all

theorem parRun_name (b : Backend) (i ctx : ParamMap) (c : Component) :
    (parRun b i ctx c).template_name = c.name := by
  unfold parRun
  repeat' split
  all_goals first
    | rfl
    | simp_all

theorem parRun_err (b : Backend) (i ctx : ParamMap) (c : Component)
    (h : (parRun b i ctx c).error ≠ none) :
    (parRun b i ctx c).results = [] := by
  unfold parRun at h ⊢
  revert h
  repeat' split
  all_goals intro h
  all_goals first
    | rfl
    | exact absurd rfl h
    | simp_all

theorem foldl_seqStep_fst (b : Backend) (i : ParamMap) :
    ∀ (l : List Component) (rs : List ComposedQueryResult) (ctx : ParamMap),
      (l.foldl (seqStep b i) (rs, ctx)).1 = l.foldl (seqStepNoCtx b i) rs := by
  intro l
  induction l with
  | nil => intro rs ctx; rfl
  | cons c cs ih =>
      intro rs ctx
      have hpair : seqStep b i (rs, ctx) c =
          ((seqStep b i (rs, ctx) c).1, (seqStep b i (rs, ctx) c).2) := rfl
      calc ((c :: cs).foldl (seqStep b i) (rs, ctx)).1
          = (cs.foldl (seqStep b i)
              ((seqStep b i (rs, ctx) c).1, (seqStep b i (rs, ctx) c).2)).1 := by
            rw [List.foldl_cons, ← hpair]
        _ = cs.foldl (seqStepNoCtx b i) (seqStep b i (rs, ctx) c).1 :=
            ih _ _
        _ = cs.foldl (seqStepNoCtx b i) (seqStepNoCtx b i rs c) := by
            rw [seqStep_fst]
        _ = (c :: cs).foldl (seqStepNoCtx b i) rs := by
            rw [List.foldl_cons]

theorem foldl_seqStepNoCtx_shape (b : Backend) (i : ParamMap) :
    ∀ (l : List Component) (rs : List ComposedQueryResult),
      ∃ tail : List ComposedQueryResult,
        l.foldl (seqStepNoCtx b i) rs = rs ++ tail ∧
        tail.map (fun r => r.template_name) = l.map (fun c => c.name) ∧
        ∀ r ∈ tail, r.error ≠ none → r.results = [] := by
  intro l
  induction l with
  | nil => intro rs; exact ⟨[], by simp⟩
  | cons c cs ih =>
      intro rs
      obtain ⟨tail, h1, h2, h3⟩ := ih (seqStepNoCtx b i rs c)
      refine ⟨seqResultOf b i rs c :: tail, ?_, ?_, ?_⟩
      · rw [List.foldl_cons, h1, seqStepNoCtx_eq]
        simp
      · simp only [List.map_cons, h2, seqResultOf_name]
      · intro r hr herr
        rcases List.mem_cons.mp hr with h | h
        · subst h; exact seqResultOf_err b i rs c herr
        · exact h3 r h herr

theorem sortByOrder_perm (cs : List Component) : (sortByOrder cs).Perm cs :=
  List.perm_insertionSort _ cs

theorem sortByOrder_sorted (cs : List Component) :
    List.Pairwise (fun a b : Component => a.order ≤ b.order) (sortByOrder cs) := by
  haveI : IsTotal Component (fun a b : Component => a.order ≤ b.order) :=
    ⟨fun a b => le_total a.order b.order⟩
  haveI : IsTrans Component (fun a b : Component => a.order ≤ b.order) :=
    ⟨fun a b c hab hbc => le_trans hab hbc⟩
  exact List.sorted_insertionSort _ cs

theorem executeComposed_names (backend : Backend) (ctype : String)
    (input : ParamMap) (components : List Component) :
    (executeComposed backend ctype input components).map (fun r => r.template_name) =
      (sortByOrder components).map (fun c => c.name) := by
  unfold executeComposed
  by_cases h : ctype = "SEQUENCE"
  · rw [if_pos h, foldl_seqStep_fst]
    obtain ⟨tail, h1, h2, _⟩ := foldl_seqStepNoCtx_shape backend input (sortByOrder components) []
    rw [h1]
    simpa using h2
  · rw [if_neg h, List.map_map]
    exact List.map_congr_left (fun c _ => parRun_name backend input input c)

theorem executeComposed_length (backend : Backend) (ctype : String)
    (input : ParamMap) (components : List Component) :
    (executeComposed backend ctype input components).length = components.length := by
  have h := congrArg List.length (executeComposed_names backend ctype input components)
  simpa [(sortByOrder_perm components).length_eq] using h

theorem executeComposed_err (backend : Backend) (ctype : String)
    (input : ParamMap) (components : List Component) :
    ∀ r ∈ executeComposed backend ctype input components,
      r.error ≠ none → r.results = [] := by
  unfold executeComposed
  by_cases h : ctype = "SEQUENCE"
  · rw [if_pos h, foldl_seqStep_fst]
    obtain ⟨tail, h1, _, h3⟩ := foldl_seqStepNoCtx_shape backend input (sortByOrder components) []
    rw [h1]
    simpa using h3
  · rw [if_neg h]
    intro r hr herr
    obtain ⟨c, _, hc⟩ := List.mem_map.mp hr
    subst hc
    exact parRun_err backend input input c herr

/-- C10: in SEQUENCE mode the accumulated context map is written but
never read by parameter resolution: the implementation that omits the
context updates returns exactly the same composed_results on every
backend, input and component list. -/
theorem sequence_context_writes_unobservable (backend : Backend)
    (input : ParamMap) (components : List Component) :
    executeComposed backend "SEQUENCE" input components =
      executeComposedNoCtx backend "SEQUENCE" input components := by
  unfold executeComposed executeComposedNoCtx
  rw [if_pos rfl, if_pos rfl, foldl_seqStep_fst]

/-- C1: executing a composed template with k components produces
exactly k ComponentResults, one per component in both modes (their
template_name fields are, in order, the names of the components sorted
ascending by order), the sorted component list is ascending on order,
and it is a permutation of the looked-up components. -/
theorem composed_results_one_per_component_in_order (backend : Backend)
    (ctype : String) (input : ParamMap) (components : List Component) :
    (executeComposed backend ctype input components).length = components.length ∧
    (executeComposed backend ctype input components).map (fun r => r.template_name) =
      (sortByOrder components).map (fun c => c.name) ∧
    List.Pairwise (fun a b : Int => a ≤ b)
      ((sortByOrder components).map (fun c => c.order)) ∧
    (sortByOrder components).Perm components :=
  ⟨executeComposed_length backend ctype input components,
   executeComposed_names backend ctype input components,
   List.Pairwise.map _ (fun _ _ h => h) (sortByOrder_sorted components),
   sortByOrder_perm components⟩

/-- C2: in both modes, every component yields exactly one
ComponentResult (the loop never skips or aborts: the executor is a
total function and the result list has one entry per component), and
any failed component is recorded with `error` set and an empty record
list. -/
theorem component_failures_isolated (backend : Backend) (ctype : String)
    (input : ParamMap) (components : List Component) :
    (executeComposed backend ctype input components).length = components.length ∧
    ∀ r ∈ executeComposed backend ctype input components,
      r.error ≠ none → r.results = [] :=
  ⟨executeComposed_length backend ctype input components,
   executeComposed_err backend ctype input components⟩

theorem component_failures_isolated_witness :
    (⟨"count_relationships", [],
        some "Missing required parameter for count_relationships: user_id"⟩ :
      ComposedQueryResult).results = [] :=
  (component_failures_isolated chainBackend "SEQUENCE" chainInput
      [findUserComp, countRelComp]).2
    ⟨"count_relationships", [],
      some "Missing required parameter for count_relationships: user_id"⟩
    (by decide) (by decide)

theorem prevLookup_congr (rs₁ rs₂ : List ComposedQueryResult) (n : String)
    (h : rs₁.getLast? = rs₂.getLast?) : prevLookup rs₁ n = prevLookup rs₂ n := by
  unfold prevLookup
  rw [h]

theorem resolveSeqStep_congr (input : ParamMap)
    (rs₁ rs₂ : List ComposedQueryResult) (cname : String) (acc : ParamMap)
    (p : ParamSpec) (h : rs₁.getLast? = rs₂.getLast?) :
    resolveSeqStep input rs₁ cname acc p = resolveSeqStep input rs₂ cname acc p := by
  unfold resolveSeqStep
  rw [prevLookup_congr rs₁ rs₂ p.name h]

theorem foldlM_resolveSeqStep_congr (input : ParamMap)
    (rs₁ rs₂ : List ComposedQueryResult) (cname : String)
    (h : rs₁.getLast? = rs₂.getLast?) :
    ∀ (ps : List ParamSpec) (acc : ParamMap),
      List.foldlM (resolveSeqStep input rs₁ cname) acc ps =
        List.foldlM (resolveSeqStep input rs₂ cname) acc ps := by
  intro ps
  induction ps with
  | nil => intro acc; rfl
  | cons p rest ih =>
      intro acc
      rw [List.foldlM_cons, List.foldlM_cons,
        resolveSeqStep_congr input rs₁ rs₂ cname acc p h]
      cases resolveSeqStep input rs₂ cname acc p with
      | error msg => rfl
      | ok acc' => exact ih acc'

/-- C3: SEQUENCE-mode `previous_result` resolution reads only the
immediately preceding component's entry (the resolution outcome depends
on the prior result list only through its last element), a required
such parameter whose name is absent from that entry's first record (or
whose predecessor produced no records) fails with the exact message
"Missing required parameter for component: name", and that failure is
recorded as the component's result without touching the earlier ones or
the context. -/
theorem sequence_previous_result_resolution (backend : Backend) (input : ParamMap)
    (cname : String) (ps : List ParamSpec) :
    (∀ rs₁ rs₂ : List ComposedQueryResult, rs₁.getLast? = rs₂.getLast? →
        resolveSeqParams input rs₁ cname ps = resolveSeqParams input rs₂ cname ps) ∧
    (∀ (rs : List ComposedQueryResult) (p : ParamSpec) (rest : List ParamSpec),
        p.source = "previous_result" → p.required = true →
        prevLookup rs p.name = none →
        resolveSeqParams input rs cname (p :: rest) =
          .error ("Missing required parameter for " ++ cname ++ ": " ++ p.name)) ∧
    (∀ (st : List ComposedQueryResult × ParamMap) (c : Component) (msg : String),
        resolveSeqParams input st.1 c.name c.parameters = .error msg →
        seqStep backend input st c = (st.1 ++ [⟨c.name, [], some msg⟩], st.2)) := by
  refine ⟨?_, ?_, ?_⟩
  · intro rs₁ rs₂ h
    exact foldlM_resolveSeqStep_congr input rs₁ rs₂ cname h ps []
  · intro rs p rest hsrc hreq hprev
    unfold resolveSeqParams
    rw [List.foldlM_cons]
    have hstep : resolveSeqStep input rs cname [] p =
        .error ("Missing required parameter for " ++ cname ++ ": " ++ p.name) := by
      unfold resolveSeqStep
      rw [hsrc, hprev, hreq]
      simp [hasKey, lookupV]
    rw [hstep]
    rfl
  · intro st c msg h
    unfold seqStep
    rw [h]

theorem sequence_previous_result_resolution_witness :
    resolveSeqParams chainInput
        [⟨"find_user", [[("u", Value.vStr "node")]], none⟩] "count_relationships"
        [⟨"user_id", true, "previous_result"⟩] =
      .error "Missing required parameter for count_relationships: user_id" := by
  have h := (sequence_previous_result_resolution chainBackend chainInput
      "count_relationships" []).2.1
      [⟨"find_user", [[("u", Value.vStr "node")]], none⟩]
      ⟨"user_id", true, "previous_result"⟩ [] rfl rfl (by decide)
  exact h.trans (by decide)

/-- C7: PARALLEL execution is the map of a per-component function over
the components sorted by order; that function does not depend on the
`order` field, so reassigning order values can only permute the result
list, never change an individual component's outcome. -/
theorem parallel_components_independent_of_order (backend : Backend) (input : ParamMap) :
    (∀ components : List Component,
        executeComposed backend "PARALLEL" input components =
          (sortByOrder components).map (parRun backend input input)) ∧
    (∀ (c : Component) (n : Int),
        parRun backend input input (setOrder c n) = parRun backend input input c) ∧
    (∀ cs₁ cs₂ : List Component,
        (cs₁.map (fun c => setOrder c 0)).Perm (cs₂.map (fun c => setOrder c 0)) →
        (executeComposed backend "PARALLEL" input cs₁).Perm
          (executeComposed backend "PARALLEL" input cs₂)) := by
  have hpar : ∀ components : List Component,
      executeComposed backend "PARALLEL" input components =
        (sortByOrder components).map (parRun backend input input) := by
    intro cs
    unfold executeComposed
    rw [if_neg (by decide)]
  have hord : ∀ (c : Component) (n : Int),
      parRun backend input input (setOrder c n) = parRun backend input input c := by
    intro c n
    rfl
  refine ⟨hpar, hord, ?_⟩
  intro cs₁ cs₂ h
  have key : ∀ cs : List Component,
      (executeComposed backend "PARALLEL" input cs).Perm
        ((cs.map (fun c => setOrder c 0)).map (parRun backend input input)) := by
    intro cs
    rw [hpar cs]
    have h2 : (cs.map (fun c => setOrder c 0)).map (parRun backend input input) =
        cs.map (parRun backend input input) := by
      rw [List.map_map]
      exact List.map_congr_left (fun c _ => hord c 0)
    rw [h2]
    exact (sortByOrder_perm cs).map _
  exact ((key cs₁).trans (h.map _)).trans (key cs₂).symm

theorem parallel_components_independent_of_order_witness :
    (executeComposed chainBackend "PARALLEL" chainInput
        [⟨"a", "Q1", 1, [⟨"user_id", true, "input"⟩]⟩, ⟨"b", "Q2", 0, []⟩]).Perm
      (executeComposed chainBackend "PARALLEL" chainInput
        [⟨"b", "Q2", 5, []⟩, ⟨"a", "Q1", 2, [⟨"user_id", true, "input"⟩]⟩]) :=
  (parallel_components_independent_of_order chainBackend chainInput).2.2
    [⟨"a", "Q1", 1, [⟨"user_id", true, "input"⟩]⟩, ⟨"b", "Q2", 0, []⟩]
    [⟨"b", "Q2", 5, []⟩, ⟨"a", "Q1", 2, [⟨"user_id", true, "input"⟩]⟩]
    (by decide)

/-! Helper lemmas about the execute endpoint. -/

theorem executeTemplateInner_generic (store : Store) (backend : Backend)
    (name : String) (params : ParamMap) (q : String)
    (h1 : store.templates name = some ⟨false, some q⟩) (h2 : q ≠ "")
    (h3 : name ≠ "find_user_items") (h4 : name ≠ "find_user_relationships") :
    executeTemplateInner store backend name params =
      match backend q params with
      | .error msg => .error (.other msg)
      | .ok records =>
          if records.isEmpty then .ok (.simple [] (some "No results found"))
          else .ok (.simple records none) := by
  unfold executeTemplateInner
  rw [h1]
  dsimp only
  rw [if_neg h2, if_neg h3, if_neg h4]
  rfl

theorem executeTemplateInner_items (store : Store) (backend : Backend)
    (params : ParamMap) (q : String)
    (h1 : store.templates "find_user_items" = some ⟨false, some q⟩) (h2 : q ≠ "") :
    executeTemplateInner store backend "find_user_items" params =
      match backend findUserItemsQuery params with
      | .error msg => .error (.other msg)
      | .ok records =>
          if records.isEmpty then .ok (.simple [] (some "No items found for this user"))
          else .ok (.simple records none) := by
  unfold executeTemplateInner
  rw [h1]
  dsimp only
  rw [if_neg h2, if_pos rfl]
  rfl

theorem executeTemplateInner_rel (store : Store) (backend : Backend)
    (params : ParamMap) (q : String) (v : Value)
    (h1 : store.templates "find_user_relationships" = some ⟨false, some q⟩)
    (h2 : q ≠ "") (h3 : lookupV params "relationship_type" = some v)
    (h4 : pyTruthy v = true) :
    executeTemplateInner store backend "find_user_relationships" params =
      match backend (findUserRelationshipsQuery (pyStrOfValue v)) params with
      | .error msg => .error (.other msg)
      | .ok records =>
          if records.isEmpty then
            .ok (.simple [] (some "No relationships found for this user"))
          else .ok (.simple records none) := by
  unfold executeTemplateInner
  rw [h1]
  dsimp only
  rw [if_neg h2,
    if_neg (by decide : ¬ ("find_user_relationships" = "find_user_items")),
    if_pos rfl, h3]
  dsimp only
  rw [if_neg (show ¬ ¬ pyTruthy v = true from fun hc => hc h4)]
  rfl

theorem executeTemplate_generic_ok (store : Store) (backend : Backend)
    (name : String) (params : ParamMap) (q : String) (records : List Record)
    (h1 : store.templates name = some ⟨false, some q⟩) (h2 : q ≠ "")
    (h3 : name ≠ "find_user_items") (h4 : name ≠ "find_user_relationships")
    (hb : backend q params = .ok records) :
    executeTemplate store backend name params =
      .ok (.simple records (if records.isEmpty then some "No results found" else none)) := by
  unfold executeTemplate
  rw [executeTemplateInner_generic store backend name params q h1 h2 h3 h4, hb]
  cases records <;> rfl

theorem executeTemplate_generic_err (store : Store) (backend : Backend)
    (name : String) (params : ParamMap) (q : String) (msg : String)
    (h1 : store.templates name = some ⟨false, some q⟩) (h2 : q ≠ "")
    (h3 : name ≠ "find_user_items") (h4 : name ≠ "find_user_relationships")
    (hb : backend q params = .error msg) :
    executeTemplate store backend name params = .error ⟨500, msg⟩ := by
  unfold executeTemplate
  rw [executeTemplateInner_generic store backend name params q h1 h2 h3 h4, hb]
  rfl

theorem executeTemplate_store_params_irrelevant (s₁ s₂ : Store) (backend : Backend)
    (name : String) (params : ParamMap)
    (h1 : s₁.templates = s₂.templates) (h2 : s₁.compositions = s₂.compositions) :
    executeTemplate s₁ backend name params = executeTemplate s₂ backend name params := by
  obtain ⟨t₁, c₁, p₁⟩ := s₁
  obtain ⟨t₂, c₂, p₂⟩ := s₂
  have ht : t₁ = t₂ := h1
  have hc : c₁ = c₂ := h2
  subst ht
  subst hc
  rfl

theorem executeTemplate_simple_message_iff (store : Store) (backend : Backend)
    (name : String) (params : ParamMap) (records : List Record) (m : Option String)
    (h : executeTemplate store backend name params = .ok (.simple records m)) :
    m.isSome ↔ records = [] := by
  have he : executeTemplateInner store backend name params =
      executeTemplateInner store backend name params := rfl
  generalize hres : executeTemplateInner store backend name params = e at *
  unfold executeTemplate at h
  rw [hres] at h
  cases e with
  | error pe => simp at h
  | ok r =>
      have hr : r = .simple records m := by simpa using h
      subst hr
      unfold executeTemplateInner at hres
      repeat' split at hres
      all_goals simp_all
      all_goals exact hres.2 ▸ rfl

theorem lookupV_derase (m : ParamMap) (k : String) :
    lookupV (derase m k) k = none := by
  induction m with
  | nil => rfl
  | cons kv rest ih =>
      unfold derase at ih ⊢
      by_cases h : kv.1 = k
      · simp only [List.filter_cons, h]
        simpa using ih
      · simp only [List.filter_cons]
        rw [if_pos (by simpa using h)]
        unfold lookupV
        rw [if_neg h]
        exact ih

/-- C4 (code bug): a missing template and a missing composition both
raise HTTPException(404) inside the endpoint's `try:` block, but the
blanket `except Exception` re-raises them with status 500.  The outcome
is also independent of the backend (no component ever executes). -/
theorem execute_template_notfound_becomes_500 :
    executeTemplateInner fixtureStore okBackend "missing" [] =
      .error (.http 404 "Template not found") ∧
    executeTemplate fixtureStore okBackend "missing" [] =
      .error ⟨500, "404: Template not found"⟩ ∧
    executeTemplate fixtureStore boomBackend "missing" [] =
      .error ⟨500, "404: Template not found"⟩ ∧
    executeTemplateInner fixtureStore okBackend "comp" [] =
      .error (.http 404 "Composed template not found") ∧
    executeTemplate fixtureStore okBackend "comp" [] =
      .error ⟨500, "404: Composed template not found"⟩ ∧
    executeTemplate fixtureStore boomBackend "comp" [] =
      .error ⟨500, "404: Composed template not found"⟩ := by
  decide

/-- C5 counterexample: the store declares a required input-sourced
parameter `user_id` for the simple template `t`, the caller supplies an
empty parameter map, and the request succeeds anyway (the simple path
never consults declared parameter specs), contradicting the claimed
whole-request bad-request failure. -/
theorem simple_missing_required_param_no_badrequest :
    fixtureStore.templateParams "t" = [⟨"user_id", true, "input"⟩] ∧
    lookupV [] "user_id" = none ∧
    executeTemplate fixtureStore okBackend "t" [] =
      .ok (.simple [[("x", Value.vInt 1)]] none) := by
  decide

/-- C5 amended: simple execution performs no declared-parameter
validation at all: the response never depends on the store's declared
parameter specs, and for a generic simple template the request simply
forwards the parameter map to the backend — succeeding whenever the
backend succeeds (even with required parameters omitted) and surfacing
a backend failure as an internal 500 error. -/
theorem simple_no_declared_param_validation (s₁ s₂ : Store) (backend : Backend)
    (name : String) (params : ParamMap) :
    (s₁.templates = s₂.templates → s₁.compositions = s₂.compositions →
        executeTemplate s₁ backend name params = executeTemplate s₂ backend name params) ∧
    (∀ (q : String) (records : List Record),
        s₁.templates name = some ⟨false, some q⟩ → q ≠ "" →
        name ≠ "find_user_items" → name ≠ "find_user_relationships" →
        backend q params = .ok records →
        ∃ m, executeTemplate s₁ backend name params = .ok (.simple records m)) ∧
    (∀ (q msg : String),
        s₁.templates name = some ⟨false, some q⟩ → q ≠ "" →
        name ≠ "find_user_items" → name ≠ "find_user_relationships" →
        backend q params = .error msg →
        executeTemplate s₁ backend name params = .error ⟨500, msg⟩) := by
  refine ⟨?_, ?_, ?_⟩
  · intro h1 h2
    exact executeTemplate_store_params_irrelevant s₁ s₂ backend name params h1 h2
  · intro q records h1 h2 h3 h4 hb
    exact ⟨if records.isEmpty then some "No results found" else none,
      executeTemplate_generic_ok s₁ backend name params q records h1 h2 h3 h4 hb⟩
  · intro q msg h1 h2 h3 h4 hb
    exact executeTemplate_generic_err s₁ backend name params q msg h1 h2 h3 h4 hb

theorem simple_no_declared_param_validation_witness :
    executeTemplate fixtureStore okBackend "t" [] =
      executeTemplate fixtureStoreNoParams okBackend "t" [] ∧
    (∃ m, executeTemplate fixtureStore okBackend "t" [] =
      .ok (.simple [[("x", Value.vInt 1)]] m)) ∧
    executeTemplate fixtureStore boomBackend "t" [] = .error ⟨500, "boom"⟩ := by
  have h := simple_no_declared_param_validation fixtureStore fixtureStoreNoParams okBackend "t" []
  have hberr := simple_no_declared_param_validation fixtureStore fixtureStoreNoParams boomBackend "t" []
  refine ⟨h.1 rfl rfl, ?_, ?_⟩
  · exact h.2.1 "Q1" [[("x", Value.vInt 1)]] (by decide) (by decide) (by decide)
      (by decide) (by decide)
  · exact hberr.2.2 "Q1" "boom" (by decide) (by decide) (by decide) (by decide)
      (by decide)

/-- C8: a simple template whose backend execution succeeds with any
record set yields a success response (never an error), on all three
simple paths; across every simple response the informational `message`
field is present exactly when the record set is empty. -/
theorem simple_empty_result_reported_success (store : Store) (backend : Backend)
    (name : String) (params : ParamMap) :
    (∀ (q : String) (records : List Record),
        store.templates name = some ⟨false, some q⟩ → q ≠ "" →
        name ≠ "find_user_items" → name ≠ "find_user_relationships" →
        backend q params = .ok records →
        executeTemplate store backend name params =
          .ok (.simple records
            (if records.isEmpty then some "No results found" else none))) ∧
    (∀ (q : String) (records : List Record),
        store.templates "find_user_items" = some ⟨false, some q⟩ → q ≠ "" →
        backend findUserItemsQuery params = .ok records →
        executeTemplate store backend "find_user_items" params =
          .ok (.simple records
            (if records.isEmpty then some "No items found for this user" else none))) ∧
    (∀ (q : String) (v : Value) (records : List Record),
        store.templates "find_user_relationships" = some ⟨false, some q⟩ → q ≠ "" →
        lookupV params "relationship_type" = some v → pyTruthy v = true →
        backend (findUserRelationshipsQuery (pyStrOfValue v)) params = .ok records →
        executeTemplate store backend "find_user_relationships" params =
          .ok (.simple records
            (if records.isEmpty then some "No relationships found for this user" else none))) ∧
    (∀ (records : List Record) (m : Option String),
        executeTemplate store backend name params = .ok (.simple records m) →
        (m.isSome ↔ records = [])) := by
  refine ⟨?_, ?_, ?_, ?_⟩
  · intro q records h1 h2 h3 h4 hb
    exact executeTemplate_generic_ok store backend name params q records h1 h2 h3 h4 hb
  · intro q records h1 h2 hb
    unfold executeTemplate
    rw [executeTemplateInner_items store backend params q h1 h2, hb]
    cases records <;> rfl
  · intro q v records h1 h2 h3 h4 hb
    unfold executeTemplate
    rw [executeTemplateInner_rel store backend params q v h1 h2 h3 h4, hb]
    cases records <;> rfl
  · intro records m h
    exact executeTemplate_simple_message_iff store backend name params records m h

theorem simple_empty_result_reported_success_witness :
    executeTemplate fixtureStoreNoParams emptyBackend "t" [] =
      .ok (.simple [] (some "No results found")) ∧
    executeTemplate fixtureStoreNoParams emptyBackend "find_user_items" [] =
      .ok (.simple [] (some "No items found for this user")) := by
  have h1 := (simple_empty_result_reported_success fixtureStoreNoParams
      emptyBackend "t" []).1 "Q1" [] (by decide) (by decide) (by decide) (by decide) rfl
  have h2 := (simple_empty_result_reported_success fixtureStoreNoParams
      emptyBackend "find_user_items" []).2.1 "STORED items body" [] (by decide)
      (by decide) rfl
  exact ⟨h1.trans (by decide), h2.trans (by decide)⟩

/-- C6 counterexample: a component whose query contains the token
`$relationship_type` and whose resolved bound-parameter map binds
`relationship_type` to the (non-string) value 5 does not get the token
replaced and the query passed on — `str.replace` raises a `TypeError`,
the component is recorded as failed, and the backend (here one that
echoes every query it receives) is never called. -/
theorem relationship_value_nonstring_not_substituted :
    renderQuery "Q$relationship_type" [("relationship_type", Value.vInt 5)] =
      .error "replace() argument 2 must be str" ∧
    executeComposed echoBackend "PARALLEL" [("relationship_type", Value.vInt 5)]
      [⟨"c", "Q$relationship_type", 0, [⟨"relationship_type", false, "input"⟩]⟩] =
      [⟨"c", [], some "replace() argument 2 must be str"⟩] := by
  decide

/-- C6 amended: when the query text contains `$relationship_type` and
the resolved map binds `relationship_type` to a string value, the
rendered query is the text with every token occurrence replaced by that
string and the map passed on no longer contains the binding; when the
token or the binding is absent both are passed through unchanged (a
non-string binding instead fails that component with a type error). -/
theorem relationship_substitution_contract (q : String) (ps : ParamMap) :
    (∀ s : String, hasSubstr q "$relationship_type" = true →
        lookupV ps "relationship_type" = some (Value.vStr s) →
        renderQuery q ps =
          .ok (pyReplace q "$relationship_type" s, derase ps "relationship_type") ∧
        lookupV (derase ps "relationship_type") "relationship_type" = none) ∧
    (hasSubstr q "$relationship_type" = false → renderQuery q ps = .ok (q, ps)) ∧
    (lookupV ps "relationship_type" = none → renderQuery q ps = .ok (q, ps)) := by
  refine ⟨?_, ?_, ?_⟩
  · intro s hsub hlook
    constructor
    · unfold renderQuery
      rw [if_pos ⟨hsub, by rw [hasKey, hlook]; rfl⟩, hlook]
    · exact lookupV_derase ps "relationship_type"
  · intro hsub
    unfold renderQuery
    rw [if_neg (fun hc => by rw [hsub] at hc; exact Bool.false_ne_true hc.1)]
  · intro hlook
    unfold renderQuery
    rw [if_neg (fun hc => by
      have := hc.2
      rw [hasKey, hlook] at this
      exact Bool.false_ne_true this)]

theorem relationship_substitution_contract_witness :
    renderQuery "MATCH (u)-[r:$relationship_type]->() RETURN r"
        [("user_id", Value.vStr "42"), ("relationship_type", Value.vStr "FOLLOWS")] =
      .ok ("MATCH (u)-[r:FOLLOWS]->() RETURN r", [("user_id", Value.vStr "42")]) ∧
    renderQuery "MATCH (n) RETURN n" [("relationship_type", Value.vStr "FOLLOWS")] =
      .ok ("MATCH (n) RETURN n", [("relationship_type", Value.vStr "FOLLOWS")]) := by
  have h := (relationship_substitution_contract
      "MATCH (u)-[r:$relationship_type]->() RETURN r"
      [("user_id", Value.vStr "42"), ("relationship_type", Value.vStr "FOLLOWS")]).1
      "FOLLOWS" (by decide) (by decide)
  have h2 := (relationship_substitution_contract "MATCH (n) RETURN n"
      [("relationship_type", Value.vStr "FOLLOWS")]).2.1 (by decide)
  exact ⟨h.1.trans (by decide), h2⟩

set_option maxRecDepth 8000 in
/-- C9 (code bug on the error status): the two hard-coded template
names run fixed queries — the stored query body's content is ignored
(two stores with different bodies behave identically) and the caller's
`relationship_type` is spliced as text into the executed query — and a
missing `relationship_type` raises HTTPException(400) which the blanket
handler re-surfaces with status 500 instead of the claimed bad-request
status. -/
theorem hardcoded_templates_ignore_stored_query_and_400_becomes_500 :
    executeTemplateInner fixtureStoreNoParams okBackend "find_user_relationships"
        [("user_id", Value.vStr "1")] =
      .error (.http 400 "Relationship type is required") ∧
    executeTemplate fixtureStoreNoParams okBackend "find_user_relationships"
        [("user_id", Value.vStr "1")] =
      .error ⟨500, "400: Relationship type is required"⟩ ∧
    executeTemplate fixtureStoreNoParams echoBackend "find_user_relationships"
        [("relationship_type", Value.vStr "FOLLOWS")] =
      .ok (.simple [[("q", Value.vStr (findUserRelationshipsQuery "FOLLOWS"))]] none) ∧
    executeTemplate fixtureStoreAlt echoBackend "find_user_relationships"
        [("relationship_type", Value.vStr "FOLLOWS")] =
      executeTemplate fixtureStoreNoParams echoBackend "find_user_relationships"
        [("relationship_type", Value.vStr "FOLLOWS")] ∧
    executeTemplate fixtureStoreNoParams echoBackend "find_user_items" [] =
      .ok (.simple [[("q", Value.vStr findUserItemsQuery)]] none) ∧
    executeTemplate fixtureStoreAlt echoBackend "find_user_items" [] =
      executeTemplate fixtureStoreNoParams echoBackend "find_user_items" [] := by
  decide

end LostAndFound
